import Mathlib

/-!
Shallow embedding of `src/app.py` (a Streamlit news-assistant chat bot).

External services (the language-model endpoint, the RSS feed parser, the
headless browser and the notes-workspace API) are modelled as oracle
parameters: a parsed feed is a `List Entry`, a model call or API call is an
`Except String _` value describing either its reply or the exception it
raised.  Python functions that may raise are embedded as `Except`-valued
functions; Python functions that catch all exceptions are embedded as total
functions.  `st.session_state` is the `SessionState` record, threaded
explicitly.
-/

namespace NewsApp

/-- One item of a parsed RSS feed (`feedparser` entry): title and link. -/
structure Entry where
  title : String
  link : String
deriving DecidableEq, Repr

/-- A processed news record as built by `search_and_process_news`:
`{"title": entry.title, "link": entry.link, "summary": summary}`. -/
structure NewsArticle where
  title : String
  link : String
  summary : String
deriving DecidableEq, Repr

/-- A chat message in `st.session_state.messages`.  `news_results` is `some`
exactly when the Python dict carries the `"news_results"` key; `timestamp`
models the optional `time.time()` field (abstracted to `Nat`). -/
structure Message where
  role : String
  content : String
  news_results : Option (List NewsArticle)
  timestamp : Option Nat
deriving DecidableEq, Repr

/-- A schedule added by the sidebar form. -/
structure Schedule where
  id : Nat
  type : String
  keyword : String
  hour : Nat
  minute : Nat
  active : Bool
deriving DecidableEq, Repr

/-- An auto-collected batch appended to `st.session_state.collected_news`. -/
structure Collection where
  keyword : String
  results : List NewsArticle
  timestamp : String
deriving DecidableEq, Repr

/-- The four session-state collections initialised at the top of the script. -/
structure SessionState where
  messages : List Message
  schedules : List Schedule
  collected_news : List Collection
  last_check_time : List (String × String)
deriving DecidableEq, Repr

/-- Record of one invocation of `save_to_notion` (its three arguments). -/
structure NotionCall where
  title : String
  summary : String
  link : String
deriving DecidableEq, Repr

/-- Session state right after initialisation: all four collections empty. -/
def initState : SessionState := ⟨[], [], [], []⟩

/-! ### String helpers modelling the Python primitives used by the code -/

/-- Models Python `str.strip()`: drop leading and trailing whitespace. -/
def pyStrip (s : String) : String :=
  String.mk (((s.data.dropWhile Char.isWhitespace).reverse.dropWhile
    Char.isWhitespace).reverse)

/-- Models Python `str.upper()` on the ASCII letters the intent check uses. -/
def pyUpper (s : String) : String :=
  String.mk (s.data.map Char.toUpper)

/-- Models Python slicing `s[:n]`: the first `n` characters. -/
def strTake (n : Nat) (s : String) : String :=
  String.mk (s.data.take n)

/-- `beginsWith p l` holds when `p` is an initial segment of `l`. -/
def beginsWith : List Char → List Char → Bool
  | [], _ => true
  | _ :: _, [] => false
  | p :: ps, c :: cs => p == c && beginsWith ps cs

/-- `hasSubstring p l` holds when `p` occurs contiguously inside `l`. -/
def hasSubstring (p : List Char) : List Char → Bool
  | [] => p.isEmpty
  | c :: cs => beginsWith p (c :: cs) || hasSubstring p cs

/-- Models the Python containment test `pat in s` on strings. -/
def strContains (s pat : String) : Bool :=
  hasSubstring pat.data s.data

/-! ### check_news_intent -/

/-- Embedding of `check_news_intent`.  `modelReply` is the outcome of the
chat-completion call (`Except.error e` when the call raises `e`).  Returns
the boolean result together with the list of `st.error` messages shown. -/
def check_news_intent (modelReply : Except String String) :
    Bool × List String :=
  match modelReply with
  | Except.ok content =>
      (strContains (pyUpper (pyStrip content)) "NEWS", [])
  | Except.error e =>
      (false, ["의도 판단 오류: " ++ e])

/-! ### crawl_and_summarize -/

/-- Oracle outcomes for the external steps of one `crawl_and_summarize` run:
browser launch, page creation, navigation, text extraction, the summary
model call (given title and truncated body), and the `finally` close. -/
structure CrawlEnv where
  launch : Except String Unit
  newPage : Except String Unit
  goto : Except String Unit
  innerText : Except String String
  summarize : String → String → Except String String
  close : Except String Unit

/-- The body of the `try:` block in `crawl_and_summarize`: navigate, extract
the page text, truncate to 2500 characters, ask the model for a summary. -/
def crawl_try (env : CrawlEnv) (entry : Entry) : Except String String :=
  match env.goto with
  | Except.error e => Except.error e
  | Except.ok _ =>
    match env.innerText with
    | Except.error e => Except.error e
    | Except.ok content => env.summarize entry.title (strTake 2500 content)

/-- The `try`/`except` pair in `crawl_and_summarize`: a failing body is
converted to an inline error-string summary. -/
def crawl_recover (env : CrawlEnv) (entry : Entry) : String :=
  match crawl_try env entry with
  | Except.ok s => s
  | Except.error e => "요약 실패: " ++ e

/-- Embedding of `crawl_and_summarize`.  `launch` and `new_page` happen
before the `try:` block, so their exceptions propagate; the `finally:`
`browser.close()` runs after it and its exception replaces the return. -/
def crawl_and_summarize (env : CrawlEnv) (entry : Entry) :
    Except String String :=
  match env.launch with
  | Except.error e => Except.error e
  | Except.ok _ =>
    match env.newPage with
    | Except.error e => Except.error e
    | Except.ok _ =>
      let r := crawl_recover env entry
      match env.close with
      | Except.error e => Except.error e
      | Except.ok _ => Except.ok r

/-! ### search_and_process_news -/

/-- The `for entry in feed.entries[:3]` loop: each entry is crawled and
summarised via `asyncio.run` (whose exceptions propagate), and a record with
the entry's title and link and the returned summary is appended. -/
def processEntries (crawl : Entry → Except String String) :
    List Entry → Except String (List NewsArticle)
  | [] => Except.ok []
  | e :: es =>
    match crawl e with
    | Except.error err => Except.error err
    | Except.ok s =>
      match processEntries crawl es with
      | Except.error err => Except.error err
      | Except.ok rest => Except.ok (⟨e.title, e.link, s⟩ :: rest)

/-- One block of the response text built for article number `i`. -/
def articleBlock (i : Nat) (a : NewsArticle) : String :=
  "📰 **기사 " ++ toString i ++ ": " ++ a.title ++ "**\n" ++
  a.summary ++ "\n" ++
  "🔗 [원문 링크](" ++ a.link ++ ")\n\n"

/-- The assistant response text assembled by `search_and_process_news`. -/
def responseText (keyword : String) (results : List NewsArticle) : String :=
  "🔍 **\x27" ++ keyword ++
    "\x27** 관련 최신 뉴스를 GPT 5 - nano가 분석했습니다.\n\n" ++
  String.join ((results.enumFrom 1).map (fun p => articleBlock p.1 p.2))

/-- Embedding of `search_and_process_news`.  `feed` is the entry list of the
parsed RSS document for the keyword; `crawl` is the outcome of
`asyncio.run (crawl_and_summarize entry)` for each entry. -/
def search_and_process_news (feed : List Entry)
    (crawl : Entry → Except String String) (keyword : String) :
    Except String (Option (List NewsArticle) × String) :=
  if feed.isEmpty then
    Except.ok (none, "관련 기사를 찾을 수 없습니다.")
  else
    match processEntries crawl (feed.take 3) with
    | Except.error e => Except.error e
    | Except.ok results =>
        Except.ok (some results, responseText keyword results)

/-! ### general_chat_response and save_to_notion -/

/-- Embedding of `general_chat_response`: the model reply, or the inline
error string when the call raises. -/
def general_chat_response (chatReply : Except String String) : String :=
  match chatReply with
  | Except.ok content => content
  | Except.error e => "응답 생성 중 오류가 발생했습니다: " ++ e

/-- Embedding of `save_to_notion`.  `create` is the outcome of the
`notion.pages.create` call.  The function never touches the session state;
it is threaded through to make that a provable frame property.  Returns the
unchanged state, the success boolean, and the `st.error` messages shown. -/
def save_to_notion (create : Except String Unit)
    (title summary link : String) (s : SessionState) :
    SessionState × Bool × List String :=
  match create with
  | Except.ok _ => (s, true, [])
  | Except.error e => (s, false, ["노션 저장 오류: " ++ e])

/-! ### auto_collect_news -/

/-- Embedding of `auto_collect_news`.  The whole body sits in a
`try`/`except` returning `False`; the only fallible step is
`search_and_process_news` (via `asyncio.run`).  The Python truthiness test
`if news_results:` is false for `None` and for an empty list.  Returns the
updated state, the boolean result, and the `save_to_notion` invocations
made (title prefixed with the auto-collect tag). -/
def auto_collect_news (feed : List Entry)
    (crawl : Entry → Except String String) (now : String) (keyword : String)
    (s : SessionState) : SessionState × Bool × List NotionCall :=
  match search_and_process_news feed crawl keyword with
  | Except.error _ => (s, false, [])
  | Except.ok (newsResults, _) =>
    match newsResults with
    | none => (s, true, [])
    | some rs =>
      if rs.isEmpty then (s, true, [])
      else
        ({ s with collected_news :=
            s.collected_news ++ [⟨keyword, rs, now⟩] },
         true,
         rs.map (fun a => ⟨"[GPT5 자동수집] " ++ a.title, a.summary, a.link⟩))

/-! ### UI event handlers and the per-interaction step function -/

/-- The sidebar form handler (`if st.button("스케줄 추가"): if search_keyword:`):
an empty keyword is falsy and nothing happens; otherwise one schedule with
`id = len(schedules)` and `active = True` is appended. -/
def schedule_form_submit (ty kw : String) (hh mm : Nat) (s : SessionState) :
    SessionState :=
  if kw = "" then s
  else { s with schedules :=
    s.schedules ++ [⟨s.schedules.length, ty, kw, hh, mm, true⟩] }

/-- The assistant message built in the news branch of the chat handler:
`news_results` is attached only when the results value is truthy
(non-`None` and non-empty). -/
def mkAssistantNews (txt : String) (newsResults : Option (List NewsArticle))
    (now : Nat) : Message :=
  match newsResults with
  | none => ⟨"assistant", txt, none, some now⟩
  | some rs =>
    if rs.isEmpty then ⟨"assistant", txt, none, some now⟩
    else ⟨"assistant", txt, some rs, some now⟩

/-- The messages appended by one run of the chat-input handler: the user
message, then (unless the news pipeline raised) the assistant message. -/
def chat_new_messages (prompt : String) (intentReply : Except String String)
    (feed : List Entry) (crawl : Entry → Except String String)
    (chatReply : Except String String) (now : Nat) : List Message :=
  ⟨"user", prompt, none, none⟩ ::
  (if (check_news_intent intentReply).1 then
    match search_and_process_news feed crawl prompt with
    | Except.ok (newsResults, txt) => [mkAssistantNews txt newsResults now]
    | Except.error _ => []
  else
    [⟨"assistant", general_chat_response chatReply, none, none⟩])

/-- The chat-input handler (`if prompt := st.chat_input(...)`): appends the
user message and, when the branch completes, the assistant message.  Only
`messages` is touched. -/
def handle_chat (prompt : String) (intentReply : Except String String)
    (feed : List Entry) (crawl : Entry → Except String String)
    (chatReply : Except String String) (now : Nat) (s : SessionState) :
    SessionState :=
  { s with messages :=
      s.messages ++
        (chat_new_messages prompt intentReply feed crawl chatReply now) }

/-- A save-button click in the message render loop: for message number
`msgIdx` (an assistant message carrying `news_results`) and article number
`artIdx`, `save_to_notion` is invoked once with that article's title,
summary and link.  Returns the resulting state and the invocations made. -/
def handle_save_click (create : Except String Unit) (msgIdx artIdx : Nat)
    (s : SessionState) : SessionState × List NotionCall :=
  match s.messages.get? msgIdx with
  | none => (s, [])
  | some m =>
    if m.role = "assistant" then
      match m.news_results with
      | none => (s, [])
      | some arts =>
        match arts.get? artIdx with
        | none => (s, [])
        | some a =>
          ((save_to_notion create a.title a.summary a.link s).1,
           [⟨a.title, a.summary, a.link⟩])
    else (s, [])

/-- One user-visible interaction of the script: a chat submission, a
schedule-form submission, a save-button click, or the 60-second automatic
page reload (which re-runs the script with no widget event). -/
inductive Event where
  | chatInput (prompt : String) (intentReply : Except String String)
      (feed : List Entry) (crawl : Entry → Except String String)
      (chatReply : Except String String) (now : Nat)
  | scheduleSubmit (ty kw : String) (hh mm : Nat)
  | saveClick (create : Except String Unit) (msgIdx artIdx : Nat)
  | reload

/-- The per-interaction step of the script: the new session state and the
`save_to_notion` invocations (notes-workspace writes) the run performs.
No code path of the script calls `auto_collect_news` or reads the clock
against the schedules. -/
def step : Event → SessionState → SessionState × List NotionCall
  | Event.chatInput p ir f c cr n, s => (handle_chat p ir f c cr n s, [])
  | Event.scheduleSubmit ty kw hh mm, s =>
      (schedule_form_submit ty kw hh mm s, [])
  | Event.saveClick c j i, s => handle_save_click c j i s
  | Event.reload, s => (s, [])

/-- Session states reachable from initialisation by any sequence of
interactions. -/
inductive Reachable : SessionState → Prop where
  | init : Reachable initState
  | next (e : Event) (s : SessionState) :
      Reachable s → Reachable (step e s).1

/-! ### Concrete inputs used in witnesses and counterexamples -/

/-- A parsed feed whose three entries all carry an empty title. -/
def feedCE : List Entry :=
  [⟨"", "http://a"⟩, ⟨"", "http://b"⟩, ⟨"", "http://c"⟩]

/-- A crawl oracle that always succeeds with a fixed summary. -/
def crawlCE : Entry → Except String String := fun _ => Except.ok "sum"

/-- A four-entry feed, to exhibit that only the first three are taken. -/
def feedW : List Entry :=
  [⟨"t1", "l1"⟩, ⟨"t2", "l2"⟩, ⟨"t3", "l3"⟩, ⟨"t4", "l4"⟩]

/-- A crawl oracle whose summary is derived from the entry title. -/
def crawlW : Entry → Except String String :=
  fun e => Except.ok ("S" ++ e.title)

/-- The records `search_and_process_news` builds from `feedW` and `crawlW`. -/
def rsW : List NewsArticle :=
  [⟨"t1", "l1", "St1"⟩, ⟨"t2", "l2", "St2"⟩, ⟨"t3", "l3", "St3"⟩]

/-- A crawl run whose browser launch raises. -/
def envLaunchFail : CrawlEnv :=
  ⟨Except.error "browser down", Except.ok (), Except.ok (),
   Except.ok "body", fun _ c => Except.ok c, Except.ok ()⟩

/-- A crawl run whose navigation times out but whose browser works. -/
def envGotoFail : CrawlEnv :=
  ⟨Except.ok (), Except.ok (), Except.error "timeout",
   Except.ok "body", fun _ c => Except.ok c, Except.ok ()⟩

/-- A sample feed entry. -/
def entryEx : Entry := ⟨"headline", "http://x"⟩

/-- A sample processed article. -/
def articleW : NewsArticle := ⟨"T", "L", "S"⟩

/-- An assistant message carrying one news result. -/
def msgW : Message := ⟨"assistant", "txt", some [articleW], some 5⟩

/-- A session state holding just that assistant message. -/
def stateW : SessionState := ⟨[msgW], [], [], []⟩

/-- A crawl oracle returning an empty summary. -/
def crawlNone : Entry → Except String String := fun _ => Except.ok ""

/-! ### Helper lemmas -/

lemma beginsWith_iff (p : List Char) : ∀ l : List Char,
    beginsWith p l = true ↔ ∃ t, l = p ++ t := by
  induction p with
  | nil => intro l; simp [beginsWith]
  | cons c cs ih =>
    intro l
    cases l with
    | nil =>
      simp [beginsWith]
    | cons d ds =>
      simp only [beginsWith, Bool.and_eq_true, beq_iff_eq, ih,
        List.cons_append, List.cons.injEq]
      constructor
      · rintro ⟨rfl, t, rfl⟩
        exact ⟨t, rfl, rfl⟩
      · rintro ⟨t, rfl, rfl⟩
        exact ⟨rfl, t, rfl⟩

lemma hasSubstring_iff (p : List Char) : ∀ l : List Char,
    hasSubstring p l = true ↔ ∃ u v, l = u ++ p ++ v := by
  intro l
  induction l with
  | nil =>
    simp only [hasSubstring, List.isEmpty_iff]
    constructor
    · rintro rfl
      exact ⟨[], [], rfl⟩
    · rintro ⟨u, v, huv⟩
      rcases List.append_eq_nil.mp huv.symm with ⟨h1, h2⟩
      rcases List.append_eq_nil.mp h1 with ⟨_, h3⟩
      exact h3
  | cons c cs ih =>
    simp only [hasSubstring, Bool.or_eq_true, beginsWith_iff, ih]
    constructor
    · rintro (⟨t, ht⟩ | ⟨u, v, huv⟩)
      · exact ⟨[], t, by simpa using ht⟩
      · exact ⟨c :: u, v, by simp [huv]⟩
    · rintro ⟨u, v, huv⟩
      cases u with
      | nil => exact Or.inl ⟨v, by simpa using huv⟩
      | cons d ds =>
        simp only [List.cons_append, List.cons.injEq] at huv
        exact Or.inr ⟨ds, v, huv.2⟩

lemma strContains_iff (s pat : String) :
    strContains s pat = true ↔ ∃ pre post : String, s = pre ++ pat ++ post := by
  obtain ⟨sd⟩ := s
  obtain ⟨pd⟩ := pat
  show hasSubstring pd sd = true ↔ _
  rw [hasSubstring_iff]
  constructor
  · rintro ⟨u, v, huv⟩
    refine ⟨⟨u⟩, ⟨v⟩, ?_⟩
    show String.mk sd = String.mk ((u ++ pd) ++ v)
    exact congrArg String.mk huv
  · rintro ⟨⟨pre⟩, ⟨post⟩, h⟩
    refine ⟨pre, post, ?_⟩
    have hd := congrArg String.data h
    simpa using hd

lemma processEntries_ok (crawl : Entry → Except String String) :
    ∀ (l : List Entry) (rs : List NewsArticle),
      processEntries crawl l = Except.ok rs →
      List.Forall₂ (fun e r => r.title = e.title ∧ r.link = e.link ∧
        crawl e = Except.ok r.summary) l rs := by
  intro l
  induction l with
  | nil =>
    intro rs h
    simp only [processEntries, Except.ok.injEq] at h
    subst h
    exact List.Forall₂.nil
  | cons e es ih =>
    intro rs h
    simp only [processEntries] at h
    cases hc : crawl e with
    | error err =>
      rw [hc] at h
      simp at h
    | ok sm =>
      rw [hc] at h
      cases hr : processEntries crawl es with
      | error err =>
        rw [hr] at h
        simp at h
      | ok rest =>
        rw [hr] at h
        simp only [Except.ok.injEq] at h
        subst h
        exact List.Forall₂.cons ⟨rfl, rfl, hc⟩ (ih rest hr)

lemma save_to_notion_fst (create : Except String Unit)
    (title summary link : String) (s : SessionState) :
    (save_to_notion create title summary link s).1 = s := by
  cases create <;> rfl

lemma handle_save_click_fst (c : Except String Unit) (j i : Nat)
    (s : SessionState) : (handle_save_click c j i s).1 = s := by
  unfold handle_save_click
  cases s.messages.get? j with
  | none => rfl
  | some m =>
    dsimp only
    by_cases hr : m.role = "assistant"
    · rw [if_pos hr]
      cases m.news_results with
      | none => rfl
      | some arts =>
        dsimp only
        cases arts.get? i with
        | none => rfl
        | some a => exact save_to_notion_fst c a.title a.summary a.link s
    · rw [if_neg hr]

lemma handle_save_click_congr (c : Except String Unit) (j i : Nat)
    (s s2 : SessionState) (h : s2.messages = s.messages) :
    (handle_save_click c j i s2).2 = (handle_save_click c j i s).2 := by
  unfold handle_save_click
  rw [h]
  cases s.messages.get? j with
  | none => rfl
  | some m =>
    dsimp only
    by_cases hr : m.role = "assistant"
    · rw [if_pos hr, if_pos hr]
      cases m.news_results with
      | none => rfl
      | some arts =>
        dsimp only
        cases arts.get? i with
        | none => rfl
        | some a => rfl
    · rw [if_neg hr, if_neg hr]

lemma step_fst_collected (e : Event) (s : SessionState) :
    ((step e s).1).collected_news = s.collected_news := by
  cases e with
  | chatInput p ir f c cr n => rfl
  | scheduleSubmit ty kw hh mm =>
    by_cases hkw : kw = "" <;> simp [step, schedule_form_submit, hkw]
  | saveClick c j i =>
    show ((handle_save_click c j i s).1).collected_news = s.collected_news
    rw [handle_save_click_fst]
  | reload => rfl

lemma step_sched_bound (e : Event) (s : SessionState)
    (h : ∀ sch ∈ s.schedules, sch.id < s.schedules.length) :
    ∀ sch ∈ ((step e s).1).schedules,
      sch.id < ((step e s).1).schedules.length := by
  cases e with
  | chatInput p ir f c cr n => exact h
  | reload => exact h
  | saveClick c j i =>
    have hfst : (step (Event.saveClick c j i) s).1 = s :=
      handle_save_click_fst c j i s
    rw [hfst]
    exact h
  | scheduleSubmit ty kw hh mm =>
    by_cases hkw : kw = ""
    · simpa [step, schedule_form_submit, hkw] using h
    · simp only [step, schedule_form_submit, if_neg hkw]
      intro sch hmem
      simp only [List.mem_append, List.mem_singleton] at hmem
      simp only [List.length_append, List.length_singleton]
      cases hmem with
      | inl hm => exact Nat.lt_succ_of_lt (h sch hm)
      | inr hm =>
        subst hm
        exact Nat.lt_succ_self _

lemma reachable_collected (s : SessionState) (h : Reachable s) :
    s.collected_news = [] := by
  induction h with
  | init => rfl
  | next e s hs ih =>
    rw [step_fst_collected]
    exact ih

lemma reachable_sched_bound (s : SessionState) (h : Reachable s) :
    ∀ sch ∈ s.schedules, sch.id < s.schedules.length := by
  induction h with
  | init =>
    intro sch hm
    simp [initState] at hm
  | next e s hs ih => exact step_sched_bound e s ih

lemma auto_collect_false_iff (feed : List Entry)
    (crawl : Entry → Except String String) (now kw : String)
    (s : SessionState) :
    (auto_collect_news feed crawl now kw s).2.1 = false ↔
      ∃ e, search_and_process_news feed crawl kw = Except.error e := by
  unfold auto_collect_news
  cases hsp : search_and_process_news feed crawl kw with
  | error e =>
    dsimp only
    exact ⟨fun _ => ⟨e, rfl⟩, fun _ => rfl⟩
  | ok pr =>
    obtain ⟨results, txt⟩ := pr
    cases results with
    | none =>
      dsimp only
      constructor
      · intro hf
        exact absurd hf (by simp)
      · rintro ⟨e2, he2⟩
        exact absurd he2 (by simp)
    | some rs =>
      dsimp only
      by_cases hemp : rs.isEmpty
      · rw [if_pos hemp]
        constructor
        · intro hf
          exact absurd hf (by simp)
        · rintro ⟨e2, he2⟩
          exact absurd he2 (by simp)
      · rw [if_neg hemp]
        constructor
        · intro hf
          exact absurd hf (by simp)
        · rintro ⟨e2, he2⟩
          exact absurd he2 (by simp)

/-! ### Claim theorems -/

/-- Claim C1, counterexample: on a parsed feed of three entries whose
titles are empty, the three records returned by `search_and_process_news`
copy those empty titles, so not every record has a non-empty title field. -/
theorem claim1_counterexample :
    search_and_process_news feedCE crawlCE "AI" =
      Except.ok (some [⟨"", "http://a", "sum"⟩, ⟨"", "http://b", "sum"⟩,
          ⟨"", "http://c", "sum"⟩],
        responseText "AI" [⟨"", "http://a", "sum"⟩, ⟨"", "http://b", "sum"⟩,
          ⟨"", "http://c", "sum"⟩]) ∧
    ([(⟨"", "http://a", "sum"⟩ : NewsArticle), ⟨"", "http://b", "sum"⟩,
        ⟨"", "http://c", "sum"⟩].all fun r => !(r.title == "")) = false :=
  ⟨rfl, rfl⟩

/-- Claim C1 (amended): for every keyword whose parsed feed has at least 3
entries, whenever `search_and_process_news` returns normally it has
processed exactly the first 3 entries in feed order and returns exactly 3
records, each with the corresponding entry's title and link and the
corresponding crawl output as summary — so a field is non-empty exactly
when its source is.  The original unconditional non-emptiness of the three
fields does not hold (see the counterexample). -/
theorem claim1_search_first_three (feed : List Entry)
    (crawl : Entry → Except String String) (kw : String)
    (res : Option (List NewsArticle)) (txt : String)
    (h3 : 3 ≤ feed.length)
    (h : search_and_process_news feed crawl kw = Except.ok (res, txt)) :
    ∃ rs : List NewsArticle, res = some rs ∧ rs.length = 3 ∧
      txt = responseText kw rs ∧
      List.Forall₂ (fun (e : Entry) (r : NewsArticle) =>
        r.title = e.title ∧ r.link = e.link ∧
        crawl e = Except.ok r.summary) (feed.take 3) rs := by
  have hne : feed.isEmpty = false := by
    cases feed with
    | nil => simp at h3
    | cons a l => rfl
  unfold search_and_process_news at h
  rw [hne] at h
  simp only [Bool.false_eq_true, if_false] at h
  cases hp : processEntries crawl (feed.take 3) with
  | error e =>
    rw [hp] at h
    simp at h
  | ok rs =>
    rw [hp] at h
    simp only [Except.ok.injEq, Prod.mk.injEq] at h
    obtain ⟨h1, h2⟩ := h
    have hfa := processEntries_ok crawl (feed.take 3) rs hp
    refine ⟨rs, h1.symm, ?_, h2.symm, hfa⟩
    have hlen := List.Forall₂.length_eq hfa
    rw [← hlen, List.length_take]
    exact Nat.min_eq_left h3

/-- Claim C1, witness: a concrete four-entry feed with succeeding crawls
satisfies the amended theorem's hypotheses, and only its first three
entries are turned into records. -/
theorem claim1_witness :
    (3 ≤ feedW.length ∧
     search_and_process_news feedW crawlW "AI" =
       Except.ok (some rsW, responseText "AI" rsW)) ∧
    (∃ rs : List NewsArticle, (some rsW : Option (List NewsArticle)) = some rs ∧
      rs.length = 3 ∧ responseText "AI" rsW = responseText "AI" rs ∧
      List.Forall₂ (fun (e : Entry) (r : NewsArticle) =>
        r.title = e.title ∧ r.link = e.link ∧
        crawlW e = Except.ok r.summary) (feedW.take 3) rs) :=
  ⟨⟨by decide, rfl⟩,
   claim1_search_first_three feedW crawlW "AI" (some rsW)
     (responseText "AI" rsW) (by decide) rfl⟩

/-- Claim C2: for every keyword whose parsed feed has zero entries,
`search_and_process_news` returns exactly the pair
`(None, "관련 기사를 찾을 수 없습니다.")`. -/
theorem claim2_empty_feed_sentinel (crawl : Entry → Except String String)
    (kw : String) :
    search_and_process_news [] crawl kw =
      Except.ok (none, "관련 기사를 찾을 수 없습니다.") := rfl

/-- Claim C3: on every model reply, `check_news_intent` returns `true` if
and only if the literal token "NEWS" occurs as a substring of the reply
after stripping whitespace and upper-casing; in particular any reply not
containing the normalized token routes to the chat path. -/
theorem claim3_intent_substring (reply : String) :
    (check_news_intent (Except.ok reply)).1 = true ↔
      ∃ pre post : String,
        pyUpper (pyStrip reply) = pre ++ "NEWS" ++ post :=
  strContains_iff (pyUpper (pyStrip reply)) "NEWS"

/-- Claim C4: for every exception raised by the model call,
`check_news_intent` catches it, reports it as a UI error message, and
returns `false` (the chat branch); it never propagates and never returns
`true` on error. -/
theorem claim4_intent_error_fails_closed (e : String) :
    check_news_intent (Except.error e) =
      (false, ["의도 판단 오류: " ++ e]) := rfl

/-- Claim C5, counterexample: a browser-launch failure happens before the
`try:` block of `crawl_and_summarize`, so the exception propagates instead
of being turned into an inline error-string summary. -/
theorem claim5_counterexample :
    crawl_and_summarize envLaunchFail entryEx =
      Except.error "browser down" := rfl

/-- Claim C5 (amended): when browser launch, page creation and the final
close succeed, `crawl_and_summarize` never raises: every failure during
navigation, text extraction or summarization is caught and the summary
becomes the inline error string `"요약 실패: " ++ e`.  Failures of launch,
page creation or close do propagate (see the counterexample). -/
theorem claim5_crawl_failures_recovered (env : CrawlEnv) (entry : Entry)
    (h1 : env.launch = Except.ok ()) (h2 : env.newPage = Except.ok ())
    (h3 : env.close = Except.ok ()) :
    crawl_and_summarize env entry = Except.ok (crawl_recover env entry) ∧
    ∀ e, crawl_try env entry = Except.error e →
      crawl_recover env entry = "요약 실패: " ++ e := by
  constructor
  · unfold crawl_and_summarize
    rw [h1, h2, h3]
  · intro e he
    unfold crawl_recover
    rw [he]

/-- Claim C5, witness: a run whose navigation times out but whose browser
launch, page creation and close succeed returns normally, with the inline
error-string summary. -/
theorem claim5_witness :
    (envGotoFail.launch = Except.ok () ∧
     envGotoFail.newPage = Except.ok () ∧
     envGotoFail.close = Except.ok ()) ∧
    (crawl_and_summarize envGotoFail entryEx =
       Except.ok (crawl_recover envGotoFail entryEx) ∧
     ∀ e, crawl_try envGotoFail entryEx = Except.error e →
       crawl_recover envGotoFail entryEx = "요약 실패: " ++ e) :=
  ⟨⟨rfl, rfl, rfl⟩,
   claim5_crawl_failures_recovered envGotoFail entryEx rfl rfl rfl⟩

/-- Claim C6: when the notes-API create call raises, `save_to_notion`
returns `false` and the session state — all four collections — is exactly
what it was before the call; the failure is only shown as a UI error. -/
theorem claim6_notion_failure_frame (e title summary link : String)
    (s : SessionState) :
    save_to_notion (Except.error e) title summary link s =
      (s, false, ["노션 저장 오류: " ++ e]) := rfl

/-- Claim C7: in every reachable session state, a successful sidebar
schedule submission (non-empty keyword) appends exactly one entry, whose
`active` flag is `true` and whose `id` is strictly greater than the id of
every entry already in the collection; messages, collected news and the
last-check map are not modified. -/
theorem claim7_schedule_append (ty kw : String) (hh mm : Nat)
    (s : SessionState) (hs : Reachable s) (hkw : kw ≠ "") :
    (schedule_form_submit ty kw hh mm s).schedules =
      s.schedules ++ [⟨s.schedules.length, ty, kw, hh, mm, true⟩] ∧
    Schedule.active ⟨s.schedules.length, ty, kw, hh, mm, true⟩ = true ∧
    (∀ sch ∈ s.schedules,
      sch.id < Schedule.id ⟨s.schedules.length, ty, kw, hh, mm, true⟩) ∧
    (schedule_form_submit ty kw hh mm s).messages = s.messages ∧
    (schedule_form_submit ty kw hh mm s).collected_news = s.collected_news ∧
    (schedule_form_submit ty kw hh mm s).last_check_time =
      s.last_check_time := by
  refine ⟨?_, rfl, ?_, ?_, ?_, ?_⟩
  · simp [schedule_form_submit, hkw]
  · intro sch hm
    exact reachable_sched_bound s hs sch hm
  · simp [schedule_form_submit, hkw]
  · simp [schedule_form_submit, hkw]
  · simp [schedule_form_submit, hkw]

/-- Claim C7, witness: submitting the form with keyword "AI" on the
freshly initialised session appends the schedule with id 0. -/
theorem claim7_witness :
    (("AI" : String) ≠ "") ∧
    ((schedule_form_submit "매일" "AI" 9 0 initState).schedules =
       initState.schedules ++
         [⟨initState.schedules.length, "매일", "AI", 9, 0, true⟩] ∧
     Schedule.active
       ⟨initState.schedules.length, "매일", "AI", 9, 0, true⟩ = true ∧
     (∀ sch ∈ initState.schedules,
       sch.id < Schedule.id
         ⟨initState.schedules.length, "매일", "AI", 9, 0, true⟩) ∧
     (schedule_form_submit "매일" "AI" 9 0 initState).messages =
       initState.messages ∧
     (schedule_form_submit "매일" "AI" 9 0 initState).collected_news =
       initState.collected_news ∧
     (schedule_form_submit "매일" "AI" 9 0 initState).last_check_time =
       initState.last_check_time) :=
  ⟨by decide,
   claim7_schedule_append "매일" "AI" 9 0 initState Reachable.init
     (by decide)⟩

/-- Claim C8: `auto_collect_news` is never invoked by any interaction of
the script, so every reachable session state has an empty `collected_news`
collection, and the entries of `schedules` have no effect on the messages,
the collected news, or the notes-workspace writes of any interaction. -/
theorem claim8_auto_collect_dead (s : SessionState) (hs : Reachable s)
    (e : Event) (ss : List Schedule) :
    s.collected_news = [] ∧
    ((step e { s with schedules := ss }).1).messages =
      ((step e s).1).messages ∧
    ((step e { s with schedules := ss }).1).collected_news =
      ((step e s).1).collected_news ∧
    (step e { s with schedules := ss }).2 = (step e s).2 := by
  refine ⟨reachable_collected s hs, ?_⟩
  cases e with
  | chatInput p ir f c cr n => exact ⟨rfl, rfl, rfl⟩
  | reload => exact ⟨rfl, rfl, rfl⟩
  | scheduleSubmit ty kw hh mm =>
    by_cases hkw : kw = "" <;>
      simp [step, schedule_form_submit, hkw]
  | saveClick c j i =>
    have h1 : (step (Event.saveClick c j i) { s with schedules := ss }).1 =
        { s with schedules := ss } :=
      handle_save_click_fst c j i { s with schedules := ss }
    have h2 : (step (Event.saveClick c j i) s).1 = s :=
      handle_save_click_fst c j i s
    refine ⟨?_, ?_, ?_⟩
    · rw [h1, h2]
    · rw [h1, h2]
    · exact handle_save_click_congr c j i s { s with schedules := ss } rfl

/-- Claim C8, witness: the initial state is reachable, has no collected
news, and the reload interaction behaves identically with the schedules
replaced. -/
theorem claim8_witness :
    initState.collected_news = [] ∧
    ((step Event.reload { initState with schedules := [] }).1).messages =
      ((step Event.reload initState).1).messages ∧
    ((step Event.reload { initState with schedules := [] }).1).collected_news =
      ((step Event.reload initState).1).collected_news ∧
    (step Event.reload { initState with schedules := [] }).2 =
      (step Event.reload initState).2 :=
  claim8_auto_collect_dead initState Reachable.init Event.reload []

/-- Claim C9: for every assistant message carrying `news_results` and every
article index, clicking that article's save button invokes `save_to_notion`
exactly once, with exactly that article's title, summary and link, and the
session state is unchanged. -/
theorem claim9_save_click_once (create : Except String Unit) (j i : Nat)
    (s : SessionState) (m : Message) (arts : List NewsArticle)
    (a : NewsArticle) (hm : s.messages.get? j = some m)
    (hrole : m.role = "assistant") (hn : m.news_results = some arts)
    (ha : arts.get? i = some a) :
    handle_save_click create j i s =
      (s, [⟨a.title, a.summary, a.link⟩]) := by
  unfold handle_save_click
  rw [hm]
  dsimp only
  rw [if_pos hrole, hn]
  dsimp only
  rw [ha]
  dsimp only
  rw [save_to_notion_fst]

/-- Claim C9, witness: clicking the save button of the only article of the
only assistant message makes exactly one `save_to_notion` call carrying
that article's fields. -/
theorem claim9_witness :
    (stateW.messages.get? 0 = some msgW ∧ msgW.role = "assistant" ∧
     msgW.news_results = some [articleW] ∧
     ([articleW] : List NewsArticle).get? 0 = some articleW) ∧
    handle_save_click (Except.ok ()) 0 0 stateW =
      (stateW, [⟨articleW.title, articleW.summary, articleW.link⟩]) :=
  ⟨⟨rfl, rfl, rfl, rfl⟩,
   claim9_save_click_once (Except.ok ()) 0 0 stateW msgW [articleW] articleW
     rfl rfl rfl rfl⟩

/-- Claim C10: for every keyword whose search yields no articles (the
results component is `None`), `auto_collect_news` still returns `true`,
appends nothing to `collected_news` (the state is unchanged) and performs
no notes-workspace write; and it returns `false` exactly when the search
pipeline raises inside its body. -/
theorem claim10_auto_collect_no_articles (feed : List Entry)
    (crawl : Entry → Except String String) (now kw : String)
    (s : SessionState) (msg : String)
    (h : search_and_process_news feed crawl kw = Except.ok (none, msg)) :
    auto_collect_news feed crawl now kw s = (s, true, []) ∧
    ∀ (feed2 : List Entry) (crawl2 : Entry → Except String String)
      (now2 kw2 : String) (s2 : SessionState),
      ((auto_collect_news feed2 crawl2 now2 kw2 s2).2.1 = false ↔
        ∃ e, search_and_process_news feed2 crawl2 kw2 = Except.error e) := by
  constructor
  · unfold auto_collect_news
    rw [h]
  · intro feed2 crawl2 now2 kw2 s2
    exact auto_collect_false_iff feed2 crawl2 now2 kw2 s2

/-- Claim C10, witness: with an empty feed the search returns the
no-results sentinel and `auto_collect_news` returns `true` on the initial
state without touching it. -/
theorem claim10_witness :
    search_and_process_news [] crawlNone "AI" =
      Except.ok (none, "관련 기사를 찾을 수 없습니다.") ∧
    (auto_collect_news [] crawlNone "2026-01-01" "AI" initState =
       (initState, true, []) ∧
     ∀ (feed2 : List Entry) (crawl2 : Entry → Except String String)
       (now2 kw2 : String) (s2 : SessionState),
       ((auto_collect_news feed2 crawl2 now2 kw2 s2).2.1 = false ↔
         ∃ e, search_and_process_news feed2 crawl2 kw2 = Except.error e)) :=
  ⟨rfl,
   claim10_auto_collect_no_articles [] crawlNone "2026-01-01" "AI"
     initState "관련 기사를 찾을 수 없습니다." rfl⟩

end NewsApp
